import Mathlib

/-!
Verification of the plugins web service (`src/main.rs`): a single-table
CRUD service whose mutation handlers publish `PluginUpdate` events to a
broadcast channel consumed by SSE connections.

The embedding below translates the Rust source shallowly:
* pure data types (`MutationKind`, `PluginUpdate`, `Plugin`, `PluginNew`)
  are Lean structures mirroring the Rust declarations;
* the tokio broadcast channel is a log of published events plus receiver
  cursors (`Bus`, `Receiver`);
* each HTTP handler becomes a function of the outcome its store query
  would return (the database is external I O), recording the events it
  sent, the diagnostics it printed and its HTTP-level outcome;
* the Postgres `PLUGINS` table itself is not under `src/` (the migration
  defining the schema is external), so the store is modelled from the
  spec where noted.
-/

namespace Plugins

/-- Rust `enum MutationKind { Create, Delete }` (src/main.rs). -/
inductive MutationKind where
  | Create
  | Delete
  deriving DecidableEq, Repr

/-- Rust `struct PluginUpdate { mutation_kind: MutationKind, id: i32 }`. -/
structure PluginUpdate where
  mutation_kind : MutationKind
  id : Int
  deriving DecidableEq, Repr

/-- Rust `struct Plugin { id: i32, description: String, wasm_url: String }`. -/
structure Plugin where
  id : Int
  description : String
  wasm_url : String
  deriving DecidableEq, Repr

/-- Rust `struct PluginNew { description: String, wasm_url: String }`:
the form-decoded create request (no id). -/
structure PluginNew where
  description : String
  wasm_url : String
  deriving DecidableEq, Repr

/-- A storage failure (`sqlx::Error`): connectivity loss, a failed query,
or a constraint violation.  The handlers never inspect which. -/
inductive StorageError where
  | connectivity
  | queryFailure
  | constraintViolation
  deriving DecidableEq, Repr

/-- An HTTP response at the level the claims talk about: status code and
body text.  `StatusCode::OK` in `delete_plugin` renders as status 200
with an empty body. -/
structure HttpResponse where
  status : Nat
  body : String
  deriving DecidableEq, Repr

/-- The `eprintln!` diagnostics a mutation handler can print, abstracted
to their kind and the id they mention (src/main.rs, the two
`is_err()` branches). -/
inductive Diagnostic where
  | createNoSubscribers (id : Int)
  | deleteNoSubscribers (id : Int)
  deriving DecidableEq, Repr

/-! ## The event bus

Model of the tokio `broadcast` channel as used by the service: the
channel keeps a log of all successfully sent events; a receiver is a
cursor into that log.  `send` fails (and buffers nothing) exactly when
there is no active receiver; otherwise it appends to the log and never
blocks.  A receiver that has fallen more than `capacity` events behind
the head of the log observes a lag error and is repositioned to the
oldest retained event. -/

/-- State of the broadcast channel created by
`channel::<PluginUpdate>(10)` in `main`: buffer capacity, number of live
receivers, and the log of sent events. -/
structure Bus where
  capacity : Nat
  receiverCount : Nat
  published : List PluginUpdate
  deriving DecidableEq, Repr

/-- A subscription handle: the index into `Bus.published` of the next
event this receiver will read. -/
structure Receiver where
  pos : Nat
  deriving DecidableEq, Repr

/-- Result of `Sender::send`: delivered to `n ≥ 1` receivers, or an error
because nobody is listening. -/
inductive SendOutcome where
  | delivered (receivers : Nat)
  | noReceivers
  deriving DecidableEq, Repr

/-- `tx.send(u)`: errors without buffering when there are zero receivers,
otherwise appends `u` to the log; in no case does it wait on any
receiver. -/
def Bus.send (bus : Bus) (u : PluginUpdate) : Bus × SendOutcome :=
  if bus.receiverCount = 0 then
    (bus, SendOutcome.noReceivers)
  else
    ({ bus with published := bus.published ++ [u] },
     SendOutcome.delivered bus.receiverCount)

/-- `tx.subscribe()` in `handle_plugin_stream`: a fresh receiver starts
at the current head of the log (no backlog is delivered). -/
def Bus.subscribe (bus : Bus) : Bus × Receiver :=
  ({ bus with receiverCount := bus.receiverCount + 1 },
   ⟨bus.published.length⟩)

/-- One `recv` on a broadcast receiver: nothing pending, a lag report
(the receiver was more than `capacity` events behind; it skips to the
oldest retained event), or the next event in publish order. -/
inductive RecvResult where
  | pending
  | lagged (skipped : Nat) (r : Receiver)
  | next (u : PluginUpdate) (r : Receiver)
  deriving DecidableEq, Repr

/-- `Receiver::recv` as observed through `BroadcastStream`: reading never
mutates the channel (the bus is returned unchanged), and a receiver more
than `capacity` behind gets `lagged` with its cursor moved to the oldest
retained event. -/
def Bus.recv (bus : Bus) (r : Receiver) : Bus × RecvResult :=
  if h : r.pos < bus.published.length then
    if bus.published.length - r.pos > bus.capacity then
      (bus, RecvResult.lagged (bus.published.length - bus.capacity - r.pos)
        ⟨bus.published.length - bus.capacity⟩)
    else
      (bus, RecvResult.next (bus.published.get ⟨r.pos, h⟩) ⟨r.pos + 1⟩)
  else
    (bus, RecvResult.pending)

/-- The buffer capacity passed to `channel::<PluginUpdate>(10)` in
`main` (src/main.rs line 57). -/
def channelCapacity : Nat := 10

/-! ## HTTP handlers

Each handler is a function of the outcomes its store queries would
return: `db i` is the outcome of the `i`-th store call the handler makes
(the handlers each make exactly one).  A Rust `.unwrap()` on a store
error aborts the request before anything later in the handler body runs;
this is the `Except.error` outcome, with no event sent and no body
rendered. -/

/-- Rust `struct PluginNewTemplate { plugin: Plugin }`: the rendered
single-record fragment returned by `create_plugin`. -/
structure PluginNewTemplate where
  plugin : Plugin
  deriving DecidableEq, Repr

/-- Rust `struct PluginRecords { plugins: Vec<Plugin> }`: the rendered
list view returned by `fetch_plugins`. -/
structure PluginRecords where
  plugins : List Plugin
  deriving DecidableEq, Repr

/-- Everything observable about one run of a mutation handler: how many
store calls it made, the bus afterwards, the events it sent, the
diagnostics it printed, and its outcome (a response, or the uncaught
store error). -/
structure HandlerRun (ρ : Type) where
  storeCalls : Nat
  bus : Bus
  sent : List PluginUpdate
  diags : List Diagnostic
  outcome : Except StorageError ρ
  deriving Repr

/-- `create_plugin` (src/main.rs): run the INSERT..RETURNING query and
`.unwrap()` it; on success send one `Create` event with the new id,
printing a diagnostic if nobody is listening, and return the rendered
fragment. -/
def create_plugin (db : Nat → Except StorageError Plugin) (bus : Bus) :
    HandlerRun PluginNewTemplate :=
  match db 0 with
  | Except.error e => ⟨1, bus, [], [], Except.error e⟩
  | Except.ok plugin =>
    let upd : PluginUpdate := ⟨MutationKind.Create, plugin.id⟩
    let sendRes := bus.send upd
    let diags := match sendRes.2 with
      | SendOutcome.noReceivers => [Diagnostic.createNoSubscribers plugin.id]
      | SendOutcome.delivered _ => []
    ⟨1, sendRes.1, [upd], diags, Except.ok ⟨plugin⟩⟩

/-- `delete_plugin` (src/main.rs): run the DELETE query (its row count is
discarded) and `.unwrap()` it; on success send one `Delete` event with
the path id, printing a diagnostic if nobody is listening, and respond
`StatusCode::OK` (status 200, empty body). -/
def delete_plugin (db : Nat → Except StorageError Nat) (id : Int)
    (bus : Bus) : HandlerRun HttpResponse :=
  match db 0 with
  | Except.error e => ⟨1, bus, [], [], Except.error e⟩
  | Except.ok _ =>
    let upd : PluginUpdate := ⟨MutationKind.Delete, id⟩
    let sendRes := bus.send upd
    let diags := match sendRes.2 with
      | SendOutcome.noReceivers => [Diagnostic.deleteNoSubscribers id]
      | SendOutcome.delivered _ => []
    ⟨1, sendRes.1, [upd], diags, Except.ok ⟨200, ""⟩⟩

/-- Everything observable about one run of `fetch_plugins`. -/
structure QueryRun where
  storeCalls : Nat
  outcome : Except StorageError PluginRecords
  deriving Repr

/-- `fetch_plugins` (src/main.rs): run the SELECT query, `.unwrap()` it,
and render the full list. -/
def fetch_plugins (db : Nat → Except StorageError (List Plugin)) :
    QueryRun :=
  match db 0 with
  | Except.error e => ⟨1, Except.error e⟩
  | Except.ok plugins => ⟨1, Except.ok ⟨plugins⟩⟩

/-- The transport's view of a finished handler: an `Except.ok` response
is returned as-is.  Modelled from the spec: an uncaught store failure
(the Rust `.unwrap()` panic — the panic-to-response mapping lives in the
runtime, outside `src/`) surfaces as a generic internal-failure response
with no structured error body. -/
def respond {ρ : Type} (outcome : Except StorageError ρ)
    (render : ρ → HttpResponse) : HttpResponse :=
  match outcome with
  | Except.error _ => ⟨500, ""⟩
  | Except.ok r => render r

/-! ## The record store

Modelled from the spec: the `PLUGINS` table itself is declared by a
migration that is not under `src/`; the spec describes it as one
relational table with a generated (auto-increment) primary key `id` and
text columns `description` and `wasm_url`.  The SQL statements the
handlers issue are in `src/main.rs` and are translated over that model:
`SELECT * FROM PLUGINS`, `INSERT INTO PLUGINS (description, wasm_url)
VALUES ($1, $2) RETURNING id, description, wasm_url`, and
`DELETE FROM PLUGINS WHERE ID = $1` (deleting an absent id affects zero
rows and silently succeeds). -/
structure Store where
  rows : List Plugin
  nextId : Int
  deriving DecidableEq, Repr

/-- The freshly migrated, empty table; Postgres auto-increment ids start
at 1. -/
def Store.init : Store := ⟨[], 1⟩

/-- `SELECT * FROM PLUGINS`: all rows in natural storage order. -/
def Store.list (s : Store) : List Plugin := s.rows

/-- `INSERT .. RETURNING id, description, wasm_url`: assign the next
generated id, persist the row, return the populated entity. -/
def Store.insert (s : Store) (form : PluginNew) : Plugin × Store :=
  let p : Plugin := ⟨s.nextId, form.description, form.wasm_url⟩
  (p, ⟨s.rows ++ [p], s.nextId + 1⟩)

/-- `DELETE FROM PLUGINS WHERE ID = $1`: remove the matching rows;
zero matching rows is not an error. -/
def Store.deleteById (s : Store) (id : Int) : Store :=
  ⟨s.rows.filter (fun p => p.id ≠ id), s.nextId⟩

/-- Number of rows `DELETE FROM PLUGINS WHERE ID = $1` affects. -/
def Store.rowsAffected (s : Store) (id : Int) : Nat :=
  (s.rows.filter (fun p => p.id = id)).length

/-- The stores reachable by the operations the service performs: the
migrated empty table, inserts, and deletes. -/
inductive Store.Reachable : Store → Prop where
  | init : Store.Reachable Store.init
  | insert {s : Store} (form : PluginNew) :
      Store.Reachable s → Store.Reachable (s.insert form).2
  | delete {s : Store} (id : Int) :
      Store.Reachable s → Store.Reachable (s.deleteById id)

/-- Well-formedness of a store: every live id is below the next
generated id, and no two live rows share an id. -/
def Store.WF (s : Store) : Prop :=
  (∀ p ∈ s.rows, p.id < s.nextId) ∧ (s.rows.map Plugin.id).Nodup

/-- The delete endpoint end to end: run the DELETE statement on the
store (it always succeeds, reporting the affected row count) and then
the `delete_plugin` handler body. -/
def deletePipeline (s : Store) (id : Int) (bus : Bus) :
    Store × HandlerRun HttpResponse :=
  (s.deleteById id,
   delete_plugin (fun _ => Except.ok (s.rowsAffected id)) id bus)

/-- The create endpoint end to end: run the INSERT statement on the
store and then the `create_plugin` handler body. -/
def createPipeline (s : Store) (form : PluginNew) (bus : Bus) :
    Store × HandlerRun PluginNewTemplate :=
  ((s.insert form).2,
   create_plugin (fun _ => Except.ok (s.insert form).1) bus)

/-! ## SSE serialization and the stream loop -/

/-- serde serialization of a unit enum variant: its name as a JSON
string. -/
def MutationKind.serialize : MutationKind → String
  | MutationKind.Create => "\"Create\""
  | MutationKind.Delete => "\"Delete\""

/-- `json!(msg)` rendered to text for a `PluginUpdate`: a JSON object
with the two fields (serde_json prints object keys in sorted order, so
`id` comes first). -/
def jsonOfUpdate (u : PluginUpdate) : String :=
  "\x7b\"id\":" ++ toString u.id ++ ",\"mutation_kind\":"
    ++ u.mutation_kind.serialize ++ "\x7d"

/-- A frame on the SSE wire: a data frame with a payload, or a
keep-alive frame with its fixed text. -/
inductive SseFrame where
  | data (payload : String)
  | keepAlive (text : String)
  deriving DecidableEq, Repr

/-- The closure in `handle_plugin_stream`'s `.map`: wrap the serialized
event in a `<div>` and make a data frame of it. -/
def frameOf (u : PluginUpdate) : SseFrame :=
  SseFrame.data ("<div>" ++ jsonOfUpdate u ++ "</div>")

/-- One item yielded by `BroadcastStream`: either the next event or a
lag report. -/
inductive StreamItem where
  | item (u : PluginUpdate)
  | lag (skipped : Nat)
  deriving DecidableEq, Repr

/-- Whether a stream item is a plain event (and not a lag report). -/
def StreamItem.isItem : StreamItem → Bool
  | StreamItem.item _ => true
  | StreamItem.lag _ => false

/-- The streaming loop of `handle_plugin_stream` over the items its
receiver yields: each event becomes exactly one data frame via
`msg.unwrap()` + `format!("<div>..</div>")`; a lag report makes the
`.unwrap()` panic, which kills the stream on the spot — no further frame
is emitted and the connection terminates (`aborted = true`). -/
def runSse : List StreamItem → List SseFrame × Bool
  | [] => ([], false)
  | StreamItem.lag _ :: _ => ([], true)
  | StreamItem.item u :: rest =>
    let r := runSse rest
    (frameOf u :: r.1, r.2)

/-- `recv` results turned into the items `BroadcastStream` yields (a
`pending` recv suspends rather than yielding, so only the other two
cases appear as items). -/
def itemOfRecv : RecvResult → Option StreamItem
  | RecvResult.pending => none
  | RecvResult.lagged n _ => some (StreamItem.lag n)
  | RecvResult.next u _ => some (StreamItem.item u)

/-! ## Keep-alive -/

/-- Configuration of axum's SSE keep-alive. -/
structure KeepAliveConfig where
  interval : Nat
  text : String
  deriving DecidableEq, Repr

/-- The keep-alive configured in `handle_plugin_stream`:
`.interval(Duration::from_secs(600)).text("keep-alive-text")`. -/
def sseKeepAlive : KeepAliveConfig := ⟨600, "keep-alive-text"⟩

/-- Frames the connection emits during second `t` (with `t = 0` the
instant of connection): a keep-alive on every multiple of the interval,
and a data frame for each event arriving at `t`.  Modelled from the
spec: the keep-alive timer itself lives in axum, outside `src/`; the
spec says the endpoint "emits a keep-alive frame every fixed interval
(600 seconds) with a fixed placeholder payload", independently of event
traffic. -/
def framesAt (cfg : KeepAliveConfig) (events : List (Nat × PluginUpdate))
    (t : Nat) : List SseFrame :=
  (if t % cfg.interval = 0 ∧ t ≠ 0 then [SseFrame.keepAlive cfg.text] else [])
    ++ (events.filter (fun e => e.1 = t)).map (fun e => frameOf e.2)

/-- All frames emitted through second `T`, in chronological order. -/
def connTrace (cfg : KeepAliveConfig) (events : List (Nat × PluginUpdate)) :
    Nat → List SseFrame
  | 0 => framesAt cfg events 0
  | t + 1 => connTrace cfg events t ++ framesAt cfg events (t + 1)

/-! ## Theorems -/

/-- C1: each mutation handler sends exactly one event of the matching
kind with the affected id when its store query succeeds, and sends none
when the store query fails. -/
theorem mutation_publishes_exactly_one
    (dbc : Nat → Except StorageError Plugin)
    (dbd : Nat → Except StorageError Nat) (id : Int) (bus bus' : Bus) :
    (∀ p, dbc 0 = Except.ok p →
      (create_plugin dbc bus).sent = [⟨MutationKind.Create, p.id⟩]) ∧
    (∀ e, dbc 0 = Except.error e → (create_plugin dbc bus).sent = []) ∧
    (∀ n, dbd 0 = Except.ok n →
      (delete_plugin dbd id bus').sent = [⟨MutationKind.Delete, id⟩]) ∧
    (∀ e, dbd 0 = Except.error e → (delete_plugin dbd id bus').sent = []) := by
  refine ⟨?_, ?_, ?_, ?_⟩ <;> intro x h <;>
    simp [create_plugin, delete_plugin, h]

/-- Witness for C1: on concrete inputs, a successful create sends
exactly the `Create` event of the new id and a successful delete sends
exactly the `Delete` event of the path id. -/
theorem mutation_publishes_exactly_one_witness :
    (create_plugin (fun _ => Except.ok ⟨1, "logger", "https://x/logger.wasm"⟩)
        ⟨10, 1, []⟩).sent = [⟨MutationKind.Create, 1⟩] ∧
    (delete_plugin (fun _ => Except.ok 1) 1 ⟨10, 1, []⟩).sent
        = [⟨MutationKind.Delete, 1⟩] :=
  ⟨(mutation_publishes_exactly_one
      (fun _ => Except.ok ⟨1, "logger", "https://x/logger.wasm"⟩)
      (fun _ => Except.ok 1) 1 ⟨10, 1, []⟩ ⟨10, 1, []⟩).1 _ rfl,
   (mutation_publishes_exactly_one
      (fun _ => Except.ok ⟨1, "logger", "https://x/logger.wasm"⟩)
      (fun _ => Except.ok 1) 1 ⟨10, 1, []⟩ ⟨10, 1, []⟩).2.2.1 _ rfl⟩

/-- C4: when the bus has zero receivers, a successful mutation handler
still returns its success response (the rendered fragment for create,
status 200 for delete); the condition only adds a diagnostic message.
Moreover the handler's outcome never depends on the bus at all. -/
theorem publish_without_subscribers_keeps_response
    (dbc : Nat → Except StorageError Plugin) (p : Plugin)
    (dbd : Nat → Except StorageError Nat) (n : Nat) (id : Int) (bus : Bus)
    (hc : dbc 0 = Except.ok p) (hd : dbd 0 = Except.ok n)
    (hz : bus.receiverCount = 0) :
    (create_plugin dbc bus).outcome = Except.ok ⟨p⟩ ∧
    (create_plugin dbc bus).diags = [Diagnostic.createNoSubscribers p.id] ∧
    (delete_plugin dbd id bus).outcome = Except.ok ⟨200, ""⟩ ∧
    (delete_plugin dbd id bus).diags = [Diagnostic.deleteNoSubscribers id] ∧
    (∀ bus2 : Bus,
      (create_plugin dbc bus2).outcome = (create_plugin dbc bus).outcome) ∧
    (∀ bus2 : Bus,
      (delete_plugin dbd id bus2).outcome = (delete_plugin dbd id bus).outcome) := by
  refine ⟨?_, ?_, ?_, ?_, ?_, ?_⟩ <;>
    simp [create_plugin, delete_plugin, Bus.send, hc, hd, hz]

/-- Witness for C4: concrete create and delete runs against a bus with
zero receivers still succeed and record the diagnostic. -/
theorem publish_without_subscribers_keeps_response_witness :
    (create_plugin (fun _ => Except.ok ⟨7, "d", "u"⟩) ⟨10, 0, []⟩).outcome
        = Except.ok ⟨⟨7, "d", "u"⟩⟩ ∧
    (create_plugin (fun _ => Except.ok ⟨7, "d", "u"⟩) ⟨10, 0, []⟩).diags
        = [Diagnostic.createNoSubscribers 7] ∧
    (delete_plugin (fun _ => Except.ok 0) 7 ⟨10, 0, []⟩).outcome
        = Except.ok ⟨200, ""⟩ :=
  ⟨(publish_without_subscribers_keeps_response
      (fun _ => Except.ok ⟨7, "d", "u"⟩) ⟨7, "d", "u"⟩
      (fun _ => Except.ok 0) 0 7 ⟨10, 0, []⟩ rfl rfl rfl).1,
   (publish_without_subscribers_keeps_response
      (fun _ => Except.ok ⟨7, "d", "u"⟩) ⟨7, "d", "u"⟩
      (fun _ => Except.ok 0) 0 7 ⟨10, 0, []⟩ rfl rfl rfl).2.1,
   (publish_without_subscribers_keeps_response
      (fun _ => Except.ok ⟨7, "d", "u"⟩) ⟨7, "d", "u"⟩
      (fun _ => Except.ok 0) 0 7 ⟨10, 0, []⟩ rfl rfl rfl).2.2.1⟩

/-- C5: in every handler a failing store query is fatal and untranslated:
the outcome is the error itself, nothing is published, the rendered
response is the generic 500 with empty body whatever the success
renderer would have been, the store is consulted exactly once, and no
retry happens (a handler's run depends only on the first store
outcome). -/
theorem storage_error_is_fatal
    (e : StorageError) (bus : Bus) (id : Int)
    (dbl : Nat → Except StorageError (List Plugin))
    (dbc : Nat → Except StorageError Plugin)
    (dbd : Nat → Except StorageError Nat)
    (hl : dbl 0 = Except.error e) (hc : dbc 0 = Except.error e)
    (hd : dbd 0 = Except.error e) :
    (fetch_plugins dbl).outcome = Except.error e ∧
    (fetch_plugins dbl).storeCalls = 1 ∧
    (create_plugin dbc bus).outcome = Except.error e ∧
    (create_plugin dbc bus).sent = [] ∧
    (create_plugin dbc bus).storeCalls = 1 ∧
    (delete_plugin dbd id bus).outcome = Except.error e ∧
    (delete_plugin dbd id bus).sent = [] ∧
    (delete_plugin dbd id bus).storeCalls = 1 ∧
    (∀ render, respond (fetch_plugins dbl).outcome render = ⟨500, ""⟩) ∧
    (∀ render, respond (create_plugin dbc bus).outcome render = ⟨500, ""⟩) ∧
    (∀ render, respond (delete_plugin dbd id bus).outcome render = ⟨500, ""⟩) ∧
    (∀ dbl2, dbl2 0 = dbl 0 → fetch_plugins dbl2 = fetch_plugins dbl) ∧
    (∀ dbc2, dbc2 0 = dbc 0 →
      create_plugin dbc2 bus = create_plugin dbc bus) ∧
    (∀ dbd2, dbd2 0 = dbd 0 →
      delete_plugin dbd2 id bus = delete_plugin dbd id bus) := by
  refine ⟨?_, ?_, ?_, ?_, ?_, ?_, ?_, ?_, ?_, ?_, ?_, ?_, ?_, ?_⟩ <;>
    try simp [fetch_plugins, create_plugin, delete_plugin, respond, hl, hc, hd]
  all_goals (intro db2 h2; simp [h2])

/-- Witness for C5: a concrete connectivity error run of each handler. -/
theorem storage_error_is_fatal_witness :
    (fetch_plugins (fun _ => Except.error StorageError.connectivity)).outcome
        = Except.error StorageError.connectivity ∧
    (create_plugin (fun _ => Except.error StorageError.connectivity)
        ⟨10, 1, []⟩).sent = [] ∧
    (delete_plugin (fun _ => Except.error StorageError.connectivity) 3
        ⟨10, 1, []⟩).outcome = Except.error StorageError.connectivity :=
  ⟨(storage_error_is_fatal StorageError.connectivity ⟨10, 1, []⟩ 3
      (fun _ => Except.error StorageError.connectivity)
      (fun _ => Except.error StorageError.connectivity)
      (fun _ => Except.error StorageError.connectivity) rfl rfl rfl).1,
   (storage_error_is_fatal StorageError.connectivity ⟨10, 1, []⟩ 3
      (fun _ => Except.error StorageError.connectivity)
      (fun _ => Except.error StorageError.connectivity)
      (fun _ => Except.error StorageError.connectivity) rfl rfl rfl).2.2.2.1,
   (storage_error_is_fatal StorageError.connectivity ⟨10, 1, []⟩ 3
      (fun _ => Except.error StorageError.connectivity)
      (fun _ => Except.error StorageError.connectivity)
      (fun _ => Except.error StorageError.connectivity) rfl rfl rfl).2.2.2.2.2.1⟩

/-- Helper: the freshly migrated store is well-formed. -/
theorem wf_init : Store.WF Store.init := by
  constructor <;> simp [Store.init]

/-- Helper: inserting preserves store well-formedness. -/
theorem wf_insert (s : Store) (form : PluginNew) (h : Store.WF s) :
    Store.WF (s.insert form).2 := by
  obtain ⟨hlt, hnd⟩ := h
  constructor
  · intro p hp
    simp only [Store.insert, List.mem_append, List.mem_singleton] at hp ⊢
    rcases hp with hp | hp
    · have := hlt p hp; omega
    · subst hp; simp
  · have hnotin : s.nextId ∉ s.rows.map Plugin.id := by
      intro hmem
      obtain ⟨p, hp, hid⟩ := List.mem_map.mp hmem
      have := hlt p hp; omega
    simp only [Store.insert, List.map_append, List.map_cons, List.map_nil]
    exact List.Nodup.append hnd (List.nodup_singleton _)
      (by simpa [List.disjoint_singleton] using hnotin)

/-- Helper: deleting preserves store well-formedness. -/
theorem wf_delete (s : Store) (id : Int) (h : Store.WF s) :
    Store.WF (s.deleteById id) := by
  obtain ⟨hlt, hnd⟩ := h
  constructor
  · intro p hp
    exact hlt p (List.mem_of_mem_filter hp)
  · exact List.Nodup.sublist ((List.filter_sublist _).map Plugin.id) hnd

/-- Helper: every store reachable by the service's operations is
well-formed. -/
theorem reachable_wf (s : Store) (h : Store.Reachable s) : Store.WF s := by
  induction h with
  | init => exact wf_init
  | insert form _ ih => exact wf_insert _ form ih
  | delete id _ ih => exact wf_delete _ id ih

/-- C8: in every reachable store no two live rows share an id, and the
id a create returns differs from the id of every previously created and
not-yet-deleted row; the store after the insert again has pairwise
distinct ids. -/
theorem id_unique_invariant (s : Store) (hs : Store.Reachable s)
    (form : PluginNew) :
    (s.rows.map Plugin.id).Nodup ∧
    (s.insert form).1.id ∉ s.rows.map Plugin.id ∧
    ((s.insert form).2.rows.map Plugin.id).Nodup := by
  have hwf := reachable_wf s hs
  refine ⟨hwf.2, ?_, (wf_insert s form hwf).2⟩
  intro hmem
  obtain ⟨p, hp, hid⟩ := List.mem_map.mp hmem
  have := hwf.1 p hp
  simp only [Store.insert] at hid
  omega

/-- Witness for C8: after one insert into the fresh store, the next
insert's id is fresh and ids stay pairwise distinct. -/
theorem id_unique_invariant_witness :
    (((Store.init.insert ⟨"a", "ua"⟩).2.rows.map Plugin.id).Nodup ∧
    ((Store.init.insert ⟨"a", "ua"⟩).2.insert ⟨"b", "ub"⟩).1.id
        ∉ (Store.init.insert ⟨"a", "ua"⟩).2.rows.map Plugin.id ∧
    ((((Store.init.insert ⟨"a", "ua"⟩).2.insert ⟨"b", "ub"⟩).2.rows.map
        Plugin.id).Nodup)) :=
  id_unique_invariant (Store.init.insert ⟨"a", "ua"⟩).2
    (Store.Reachable.insert ⟨"a", "ua"⟩ Store.Reachable.init) ⟨"b", "ub"⟩

/-- C2: in a well-formed store, after `insert(d, u)` succeeds, `list()`
holds exactly one record whose description is `d`, whose `wasm_url` is
`u`, and whose id is the id the insert returned. -/
theorem insert_then_list_exactly_one (s : Store) (form : PluginNew)
    (hwf : Store.WF s) :
    ((s.insert form).2.list.filter (fun q =>
        q.description == form.description && q.wasm_url == form.wasm_url
          && q.id == (s.insert form).1.id)).length = 1 := by
  have hnone : ∀ q ∈ s.rows,
      ¬(q.description == form.description && q.wasm_url == form.wasm_url
          && q.id == s.nextId) = true := by
    intro q hq
    have := hwf.1 q hq
    simp only [Bool.and_eq_true, beq_iff_eq]
    intro hcontra
    have := hcontra.2
    omega
  simp only [Store.insert, Store.list, List.filter_append,
    List.length_append]
  rw [List.filter_eq_nil_iff.mpr hnone]
  simp

/-- Witness for C2: inserting the example record into the fresh store
yields a list with exactly one matching record. -/
theorem insert_then_list_exactly_one_witness :
    Store.WF Store.init ∧
    ((Store.init.insert ⟨"logger", "https://x/logger.wasm"⟩).2.list.filter
        (fun q => q.description == "logger"
          && q.wasm_url == "https://x/logger.wasm"
          && q.id
            == (Store.init.insert ⟨"logger", "https://x/logger.wasm"⟩).1.id)).length
      = 1 :=
  ⟨wf_init, insert_then_list_exactly_one Store.init
    ⟨"logger", "https://x/logger.wasm"⟩ wf_init⟩

/-- Helper: deleting the same id twice gives the same store as deleting
it once. -/
theorem deleteById_idem (s : Store) (id : Int) :
    (s.deleteById id).deleteById id = s.deleteById id := by
  simp [Store.deleteById, List.filter_filter]

/-- C3: for every integer id the delete endpoint responds 200 with an
empty body and sends exactly one `Delete` event carrying that id,
whether or not a row with that id exists; if no such row exists the
store is unchanged (silent no-op), and deleting the same id a second
time succeeds the same way and leaves the same store. -/
theorem delete_succeeds_regardless_of_existence (s : Store) (id : Int)
    (bus bus2 : Bus) :
    (deletePipeline s id bus).2.outcome = Except.ok ⟨200, ""⟩ ∧
    (deletePipeline s id bus).2.sent = [⟨MutationKind.Delete, id⟩] ∧
    (id ∉ s.rows.map Plugin.id → (deletePipeline s id bus).1 = s) ∧
    (deletePipeline (deletePipeline s id bus).1 id bus2).2.outcome
        = Except.ok ⟨200, ""⟩ ∧
    (deletePipeline (deletePipeline s id bus).1 id bus2).1
        = (deletePipeline s id bus).1 := by
  refine ⟨?_, ?_, ?_, ?_, ?_⟩
  · simp [deletePipeline, delete_plugin]
  · simp [deletePipeline, delete_plugin]
  · intro habs
    have : ∀ p ∈ s.rows, (decide (p.id ≠ id)) = true := by
      intro p hp
      simp only [decide_eq_true_eq]
      intro hcontra
      exact habs (List.mem_map.mpr ⟨p, hp, hcontra⟩)
    simp only [deletePipeline, Store.deleteById]
    cases s with
    | mk rows nextId =>
      simp only [Store.mk.injEq, and_true]
      exact List.filter_eq_self.mpr this
  · simp [deletePipeline, delete_plugin]
  · simp only [deletePipeline]
    exact deleteById_idem s id

/-- Witness for C3: deleting the absent id 42 from the fresh store
responds 200, sends the Delete event for 42, and leaves the store
unchanged; a second delete behaves identically. -/
theorem delete_succeeds_regardless_of_existence_witness :
    (deletePipeline Store.init 42 ⟨10, 1, []⟩).2.outcome
        = Except.ok ⟨200, ""⟩ ∧
    (deletePipeline Store.init 42 ⟨10, 1, []⟩).2.sent
        = [⟨MutationKind.Delete, 42⟩] ∧
    (deletePipeline Store.init 42 ⟨10, 1, []⟩).1 = Store.init :=
  ⟨(delete_succeeds_regardless_of_existence Store.init 42 ⟨10, 1, []⟩
      ⟨10, 1, []⟩).1,
   (delete_succeeds_regardless_of_existence Store.init 42 ⟨10, 1, []⟩
      ⟨10, 1, []⟩).2.1,
   (delete_succeeds_regardless_of_existence Store.init 42 ⟨10, 1, []⟩
      ⟨10, 1, []⟩).2.2.1 (by decide)⟩

/-- Helper: reading from a broadcast receiver never mutates the
channel. -/
theorem recv_fst (bus : Bus) (r : Receiver) : (bus.recv r).1 = bus := by
  unfold Bus.recv
  split
  · split <;> rfl
  · rfl

/-- Helper: the stream loop maps every lag-free run of items to one
frame per item and stops, aborting, at the first lag report. -/
theorem runSse_stops_at_lag (pre post : List StreamItem) (n : Nat)
    (hpre : pre.all StreamItem.isItem = true) :
    runSse (pre ++ StreamItem.lag n :: post) = ((runSse pre).1, true) := by
  induction pre with
  | nil => rfl
  | cons i rest ih =>
    cases i with
    | lag k => simp [StreamItem.isItem] at hpre
    | item u =>
      simp only [List.all_cons, Bool.and_eq_true] at hpre
      simp only [List.cons_append, runSse, List.append_eq, ih hpre.2]

/-- C6: a receiver more than `capacity` events behind observes a lag
error; this is fatal to its own stream (the loop emits no further frame
and the connection aborts), while the channel itself and every other
receiver are unaffected (reading never mutates the channel). -/
theorem lag_terminates_stream (bus : Bus) (r r2 : Receiver)
    (pre post : List StreamItem) (n : Nat)
    (hbehind : bus.published.length - r.pos > bus.capacity)
    (hpre : pre.all StreamItem.isItem = true) :
    (bus.recv r).2 = RecvResult.lagged
        (bus.published.length - bus.capacity - r.pos)
        ⟨bus.published.length - bus.capacity⟩ ∧
    (bus.recv r).1 = bus ∧
    (bus.recv r).1.recv r2 = bus.recv r2 ∧
    runSse (pre ++ StreamItem.lag n :: post) = ((runSse pre).1, true) := by
  have hlt : r.pos < bus.published.length := by omega
  refine ⟨?_, recv_fst bus r, by rw [recv_fst bus r], runSse_stops_at_lag pre post n hpre⟩
  unfold Bus.recv
  rw [dif_pos hlt, if_pos hbehind]

/-- Witness for C6: a receiver 11 events behind on a capacity-10 channel
lags, the channel is untouched, and a stream seeing one event and then a
lag report emits exactly that event's frame and aborts. -/
theorem lag_terminates_stream_witness :
    ((⟨10, 1, List.replicate 11 ⟨MutationKind.Create, 1⟩⟩ : Bus).recv ⟨0⟩).2
        = RecvResult.lagged 1 ⟨1⟩ ∧
    runSse [StreamItem.item ⟨MutationKind.Create, 1⟩, StreamItem.lag 1]
        = ([frameOf ⟨MutationKind.Create, 1⟩], true) :=
  ⟨(lag_terminates_stream ⟨10, 1, List.replicate 11 ⟨MutationKind.Create, 1⟩⟩
      ⟨0⟩ ⟨0⟩ [StreamItem.item ⟨MutationKind.Create, 1⟩] [] 1 (by decide)
      (by decide)).1,
   (lag_terminates_stream ⟨10, 1, List.replicate 11 ⟨MutationKind.Create, 1⟩⟩
      ⟨0⟩ ⟨0⟩ [StreamItem.item ⟨MutationKind.Create, 1⟩] [] 1 (by decide)
      (by decide)).2.2.2⟩

/-- Helper: a lag-free stream of events yields exactly one frame per
event, in order, and does not abort. -/
theorem runSse_items (events : List PluginUpdate) :
    runSse (events.map StreamItem.item) = (events.map frameOf, false) := by
  induction events with
  | nil => rfl
  | cons u rest ih => simp only [List.map_cons, runSse, ih]

/-- C7: for every sequence of events a connection receives, the loop
emits exactly one data frame per event, and the frame for an event is
the `<div>`-wrapped JSON serialization of its kind and id; the `Create`
of id 1 yields the frame for `id 1, mutation_kind Create`. -/
theorem sse_one_frame_per_event (events : List PluginUpdate) :
    runSse (events.map StreamItem.item) = (events.map frameOf, false) ∧
    (runSse (events.map StreamItem.item)).1.length = events.length ∧
    (∀ u : PluginUpdate,
      frameOf u = SseFrame.data ("<div>" ++ jsonOfUpdate u ++ "</div>")) ∧
    frameOf ⟨MutationKind.Create, 1⟩
      = SseFrame.data
          "<div>\x7b\"id\":1,\"mutation_kind\":\"Create\"\x7d</div>" := by
  refine ⟨runSse_items events, ?_, fun u => rfl, by decide⟩
  rw [runSse_items events]
  simp

/-- Helper: before the first keep-alive tick an idle connection emits
nothing during any single second. -/
theorem framesAt_idle (events : List (Nat × PluginUpdate))
    (hidle : ∀ e ∈ events, 600 < e.1) (t : Nat) (ht : t < 600) :
    framesAt sseKeepAlive events t = [] := by
  unfold framesAt
  have hcond : ¬(t % sseKeepAlive.interval = 0 ∧ t ≠ 0) := by
    simp only [sseKeepAlive]
    rcases Nat.eq_zero_or_pos t with h0 | h0
    · simp [h0]
    · rw [Nat.mod_eq_of_lt ht]
      omega
  rw [if_neg hcond]
  have hfilter : events.filter (fun e => e.1 = t) = [] := by
    rw [List.filter_eq_nil_iff]
    intro e he
    have := hidle e he
    simp only [decide_eq_true_eq]
    omega
  rw [hfilter]
  rfl

/-- Helper: an idle connection has emitted nothing strictly before the
first keep-alive tick. -/
theorem connTrace_idle (events : List (Nat × PluginUpdate))
    (hidle : ∀ e ∈ events, 600 < e.1) :
    ∀ t, t < 600 → connTrace sseKeepAlive events t = [] := by
  intro t
  induction t with
  | zero =>
    intro ht
    exact framesAt_idle events hidle 0 ht
  | succ k ih =>
    intro ht
    show connTrace sseKeepAlive events k ++ framesAt sseKeepAlive events (k + 1) = []
    rw [ih (by omega), framesAt_idle events hidle (k + 1) ht]
    rfl

/-- Helper: at second 600 an idle connection has emitted exactly one
keep-alive frame. -/
theorem connTrace_600 (events : List (Nat × PluginUpdate))
    (hidle : ∀ e ∈ events, 600 < e.1) :
    connTrace sseKeepAlive events 600
      = [SseFrame.keepAlive "keep-alive-text"] := by
  show connTrace sseKeepAlive events 599 ++ framesAt sseKeepAlive events 600 = _
  rw [connTrace_idle events hidle 599 (by omega)]
  unfold framesAt
  rw [if_pos (by simp [sseKeepAlive])]
  have hfilter : events.filter (fun e => e.1 = 600) = [] := by
    rw [List.filter_eq_nil_iff]
    intro e he
    have := hidle e he
    simp only [decide_eq_true_eq]
    omega
  rw [hfilter]
  rfl

/-- Helper: the frame trace only grows with time. -/
theorem connTrace_mono (cfg : KeepAliveConfig)
    (events : List (Nat × PluginUpdate)) (a b : Nat) (h : a ≤ b) :
    ∃ tail, connTrace cfg events b = connTrace cfg events a ++ tail := by
  induction h with
  | refl => exact ⟨[], (List.append_nil _).symm⟩
  | @step m _ ih =>
    obtain ⟨tail, htail⟩ := ih
    refine ⟨tail ++ framesAt cfg events (m + 1), ?_⟩
    show connTrace cfg events m ++ framesAt cfg events (m + 1) = _
    rw [htail, List.append_assoc]

/-- C9: the keep-alive is configured with a 600 second interval and the
fixed placeholder text, and a connection whose events all arrive later
than the interval emits a keep-alive frame as its very first frame —
before any data frame. -/
theorem keep_alive_before_data (events : List (Nat × PluginUpdate))
    (T : Nat) (hidle : ∀ e ∈ events, 600 < e.1) (hT : 600 ≤ T) :
    sseKeepAlive.interval = 600 ∧
    sseKeepAlive.text = "keep-alive-text" ∧
    (connTrace sseKeepAlive events T).head?
      = some (SseFrame.keepAlive "keep-alive-text") := by
  refine ⟨rfl, rfl, ?_⟩
  obtain ⟨tail, htail⟩ := connTrace_mono sseKeepAlive events 600 T hT
  rw [htail, connTrace_600 events hidle]
  rfl

/-- Witness for C9: with a single event arriving at second 601, the
first frame the connection emits by second 601 is the keep-alive. -/
theorem keep_alive_before_data_witness :
    (connTrace sseKeepAlive [(601, ⟨MutationKind.Create, 1⟩)] 601).head?
      = some (SseFrame.keepAlive "keep-alive-text") :=
  (keep_alive_before_data [(601, ⟨MutationKind.Create, 1⟩)] 601 (by decide)
    (by decide)).2.2

/-- C10: the channel in `main` is created with buffer capacity exactly
10: a receiver more than 10 events behind loses its oldest unread events
(its cursor skips to the oldest retained event, reported as a lag),
sending never waits on a receiver (with at least one receiver it appends
the event at once, whatever any receiver's position), and the keep-alive
placeholder payload is exactly "keep-alive-text". -/
theorem bus_buffer_and_keepalive_literals (bus : Bus) (r : Receiver)
    (u : PluginUpdate) (hcap : bus.capacity = channelCapacity)
    (hbehind : bus.published.length - r.pos > 10) :
    channelCapacity = 10 ∧
    sseKeepAlive.text = "keep-alive-text" ∧
    (bus.recv r).2 = RecvResult.lagged
        (bus.published.length - 10 - r.pos) ⟨bus.published.length - 10⟩ ∧
    (bus.receiverCount ≠ 0 →
      (bus.send u).1.published = bus.published ++ [u] ∧
      (bus.send u).2 = SendOutcome.delivered bus.receiverCount) := by
  have hcap10 : bus.capacity = 10 := hcap
  refine ⟨rfl, rfl, ?_, ?_⟩
  · have hlt : r.pos < bus.published.length := by omega
    unfold Bus.recv
    rw [dif_pos hlt, if_pos (by omega), hcap10]
  · intro hrc
    unfold Bus.send
    rw [if_neg hrc]
    exact ⟨rfl, rfl⟩

/-- Witness for C10: on the capacity-10 channel, a receiver 11 events
behind lags and is repositioned to the oldest retained event, and a send
with one receiver appends immediately. -/
theorem bus_buffer_and_keepalive_literals_witness :
    ((⟨channelCapacity, 1, List.replicate 11 ⟨MutationKind.Delete, 2⟩⟩ :
        Bus).recv ⟨0⟩).2 = RecvResult.lagged 1 ⟨1⟩ ∧
    ((⟨channelCapacity, 1, List.replicate 11 ⟨MutationKind.Delete, 2⟩⟩ :
        Bus).send ⟨MutationKind.Create, 3⟩).1.published
      = List.replicate 11 ⟨MutationKind.Delete, 2⟩
          ++ [⟨MutationKind.Create, 3⟩] :=
  ⟨(bus_buffer_and_keepalive_literals
      ⟨channelCapacity, 1, List.replicate 11 ⟨MutationKind.Delete, 2⟩⟩ ⟨0⟩
      ⟨MutationKind.Create, 3⟩ rfl (by decide)).2.2.1,
   ((bus_buffer_and_keepalive_literals
      ⟨channelCapacity, 1, List.replicate 11 ⟨MutationKind.Delete, 2⟩⟩ ⟨0⟩
      ⟨MutationKind.Create, 3⟩ rfl (by decide)).2.2.2 (by decide)).1⟩

end Plugins
